import Mathlib

/-!
Verification development for the `next-jwt-auth` client-side JWT session
manager.  The definitions below are a shallow embedding of the TypeScript
sources (`src/Helper.ts`, `src/JWTAuthContext.ts`, `src/JWTAuthController.ts`,
`src/JWTAuthProvider.tsx`):

* JSON response bodies are modelled by the inductive `Json`; JavaScript
  truthiness and property access are made explicit (`jsTruthy`, `jsIndex`).
* The cookie store (`js-cookie` under the three fixed keys `auth.user`,
  `auth.access_token`, `auth.refresh_token`) is a record of three optional
  slots; cookie expiry options only schedule browser-side deletion and are
  modelled by token slots simply being absent where relevant.
* Network calls are suspension points whose settled transport results are
  supplied as explicit parameters (an `Except` of status code and body), and
  the axios response-interceptor recursion is unfolded with explicit fuel.
* Thrown JavaScript exceptions become `Except.error`; a runtime `TypeError`
  (property access on `undefined`) is a distinct error constructor.
-/

/-- JSON values, the shape of API response bodies (`Record<string, any>`). -/
inductive Json where
  | null : Json
  | bool (b : Bool) : Json
  | num (n : Int) : Json
  | str (s : String) : Json
  | arr (elems : List Json) : Json
  | obj (fields : List (String × Json)) : Json

/-- JavaScript truthiness of a JSON value (`if (value)`):
`null`, `false`, `0` and `""` are falsy; arrays and objects are always
truthy. -/
def jsTruthy : Json → Bool
  | Json.null => false
  | Json.bool b => b
  | Json.num n => n != 0
  | Json.str s => s != ""
  | Json.arr _ => true
  | Json.obj _ => true

/-- Truthiness of a possibly-`undefined` JavaScript value (`undefined` is
falsy). -/
def jsTruthyOpt : Option Json → Bool
  | none => false
  | some v => jsTruthy v

/-- First field with the given key in a JavaScript object literal. -/
def lookupField : List (String × Json) → String → Option Json
  | [], _ => none
  | (k, v) :: rest, key => if k = key then some v else lookupField rest key

/-- JavaScript property access `value[key]`; `none` is `undefined`.
Object fields are looked up by name; array elements by the decimal index.
Accessing a property of any other value yields `undefined` (built-in
properties of primitives, such as `"s".length`, are not JSON data and are
not modelled). -/
def jsIndex : Json → String → Option Json
  | Json.obj fields, k => lookupField fields k
  | Json.arr elems, k => (k.toNat?).bind (fun i => elems.get? i)
  | _, _ => none

/-- JavaScript `path.split(".")` on the list of characters: splitting an
empty string yields `[""]`, and consecutive dots yield empty segments. -/
def splitDotChars : List Char → List String
  | [] => [""]
  | c :: rest =>
    match splitDotChars rest with
    | [] => []
    | w :: ws =>
      if c = '.' then "" :: w :: ws
      else String.mk (c :: w.toList) :: ws

/-- JavaScript `path.split(".")`. -/
def splitDot (s : String) : List String :=
  splitDotChars s.toList

/-- `getPropByKeyPath` from `src/Helper.ts`, after the path string has been
split into segments.  Mirrors the source line by line:
`object = object[keys[0]]; if (object && keys.length > 1) recurse;
return object === undefined ? defaultVal : object`.  The `[]` case is
unreachable from a string path (splitting never yields an empty list) and
returns the default, as the JavaScript lookup of key `undefined` would. -/
def getPropByKeyPathL : Json → List String → Json → Json
  | _, [], defaultVal => defaultVal
  | object, k :: rest, defaultVal =>
    match jsIndex object k with
    | none => defaultVal
    | some v =>
      if jsTruthy v && !rest.isEmpty then getPropByKeyPathL v rest defaultVal
      else v

/-- `getPropByKeyPath(object, keys, defaultVal)` from `src/Helper.ts` with a
dot-separated string path, as every call site in the repository uses it.
All call sites leave `defaultVal` at its declared default `null`. -/
def getPropByKeyPath (object : Json) (path : String) (defaultVal : Json) : Json :=
  getPropByKeyPathL object (splitDot path) defaultVal

/-- Strict resolution of a path: every segment must exist (`some`), and the
found value of the final segment is returned.  This is the spec's reading of
"the path traverses existing nested keys down to an existing value". -/
def strictResolve : Json → List String → Option Json
  | object, [k] => jsIndex object k
  | object, k :: k2 :: rest =>
    match jsIndex object k with
    | some m => strictResolve m (k2 :: rest)
    | none => none
  | _, [] => none

/-- The walk hits a missing segment: either the current segment is absent, or
its value is truthy and the rest of the path has a missing segment.  This is
the spec's reading of "a path with any missing segment". -/
def pathMissing : Json → List String → Bool
  | object, [k] => (jsIndex object k).isNone
  | object, k :: k2 :: rest =>
    match jsIndex object k with
    | none => true
    | some m => jsTruthy m && pathMissing m (k2 :: rest)
  | _, [] => false

/-- The walk reaches a falsy (but present) value while path segments remain:
the returned value is that falsy value, which `getPropByKeyPath` yields
instead of the default. -/
def falsyCutoff : Json → List String → Option Json
  | object, k :: k2 :: rest =>
    match jsIndex object k with
    | some m =>
      if jsTruthy m then falsyCutoff m (k2 :: rest)
      else some m
    | none => none
  | _, _ => none

/-! ## Configuration (`src/JWTAuthContext.ts`) -/

/-- `method: 'get' | 'post'` of an `APIEndpoint`. -/
inductive Method where
  | get : Method
  | post : Method
deriving DecidableEq

/-- `APIEndpoint = { url, method }`. -/
structure Endpoint where
  url : String
  method : Method

/-- `ResponsePropertyDescriptor = { property }`. -/
structure PropDescriptor where
  property : String

/-- `TokenPropertyDescriptor = { property, expireTimeProperty? }`.  The
expiry path only feeds the cookie `expires` option (browser-side deletion
scheduling), which the store model represents by a token slot simply being
absent later. -/
structure TokenDescriptor where
  property : String
  expireTimeProperty : Option String

/-- The four `endpoints` of `JWTAuthConfig`. -/
structure EndpointSet where
  login : Endpoint
  logout : Endpoint
  refresh : Endpoint
  user : Endpoint

/-- `AppEndpoint = { url }`. -/
structure AppEndpoint where
  url : String

/-- The `pages` block of `JWTAuthConfig`. -/
structure PagesConfig where
  login : AppEndpoint

/-- `JWTAuthConfig` from `src/JWTAuthContext.ts`: `refreshToken` and
`unauthorizedStatusCode` are optional. -/
structure JWTAuthConfig where
  apiBaseUrl : String
  accessToken : TokenDescriptor
  refreshToken : Option TokenDescriptor
  user : PropDescriptor
  endpoints : EndpointSet
  pages : PagesConfig
  unauthorizedStatusCode : Option Int

/-! ## Cookie store and controller state (`src/JWTAuthController.ts`) -/

/-- The three cookie slots under the fixed keys `auth.user`,
`auth.access_token` and `auth.refresh_token`.  `none` means the cookie is
absent.  The user snapshot is stored serialized (`JSON.stringify`); the model
keeps the JSON value itself. -/
structure Store where
  authUser : Option Json
  accessToken : Option Json
  refreshToken : Option Json

/-- The store with no entries. -/
def emptyStore : Store :=
  { authUser := none, accessToken := none, refreshToken := none }

/-- Controller-held mutable state: the cookie store plus the private
`isLoading` flag (`isAuthStateLoading`). -/
structure ControllerState where
  store : Store
  isLoading : Bool

/-- Thrown JavaScript errors: `thrown` is `throw new Error(msg)`; `typeError`
is the runtime `TypeError` raised by a property access on `undefined`. -/
inductive JsErr where
  | thrown (msg : String) : JsErr
  | typeError : JsErr

/-- `onLogoutRequestComplete`: removes the three cookies. -/
def onLogoutRequestComplete (_st : Store) : Store :=
  emptyStore

/-- `onTokenPairUpdated(response)`: extracts the access and refresh tokens by
their configured field paths, throws `"Token not found in response"` when
either is falsy, and otherwise writes both cookies.  When the optional
`refreshToken` descriptor is absent from the configuration, the source reads
`this.config.refreshToken.property` unguarded, which raises a `TypeError`
before any write. -/
def onTokenPairUpdated (cfg : JWTAuthConfig) (response : Json) (st : Store) :
    Store × Except JsErr (Json × Json) :=
  let accessToken := getPropByKeyPath response cfg.accessToken.property Json.null
  match cfg.refreshToken with
  | none => (st, Except.error JsErr.typeError)
  | some rdesc =>
    let refreshToken := getPropByKeyPath response rdesc.property Json.null
    if !jsTruthy accessToken || !jsTruthy refreshToken then
      (st, Except.error (JsErr.thrown "Token not found in response"))
    else
      ({ st with accessToken := some accessToken, refreshToken := some refreshToken },
        Except.ok (accessToken, refreshToken))

/-- `onLoginRequestComplete(response)`: extracts the user by its field path,
throws when it is falsy, writes the `auth.user` cookie, then ingests the
token pair.  The user cookie is written before the token extraction can
fail. -/
def onLoginRequestComplete (cfg : JWTAuthConfig) (response : Json) (st : Store) :
    Store × Except JsErr Json :=
  let user := getPropByKeyPath response cfg.user.property Json.null
  if !jsTruthy user then
    (st, Except.error (JsErr.thrown "Unexpected response from API, please recheck"))
  else
    let st1 := { st with authUser := some user }
    match onTokenPairUpdated cfg response st1 with
    | (st2, Except.error e) => (st2, Except.error e)
    | (st2, Except.ok _) => (st2, Except.ok user)

/-! ## HTTP calls

A network call is a suspension point; its settled transport outcome is
supplied as an `Except JsErr (Int × Json)` parameter — `Except.ok` carries
the HTTP status code and response body, `Except.error` a transport-level
rejection. -/

/-- Whether the caller-supplied data travels as the request body (`post`) or
as query params (`get`). -/
inductive PayloadKind where
  | body : PayloadKind
  | params : PayloadKind
deriving DecidableEq

/-- An HTTP request issued through the shared axios client. -/
structure HttpRequest where
  method : Method
  url : String
  payload : Json
  kind : PayloadKind

/-- `refreshAccessToken()`: sets the loading flag, throws
`"Refresh token not found"` when no (truthy) refresh token cookie is stored,
otherwise calls the refresh endpoint with `{ refreshToken }` (body for
`post`, query params for `get`), requires status 200, and ingests the
returned token pair via `onTokenPairUpdated`.  The returned list holds the
requests actually issued to the refresh endpoint. -/
def refreshAccessToken (cfg : JWTAuthConfig) (remote : Except JsErr (Int × Json))
    (s : ControllerState) :
    ControllerState × Except JsErr (Json × Json) × List HttpRequest :=
  let s := { s with isLoading := true }
  match s.store.refreshToken with
  | none => (s, Except.error (JsErr.thrown "Refresh token not found"), [])
  | some rt =>
    if !jsTruthy rt then
      (s, Except.error (JsErr.thrown "Refresh token not found"), [])
    else
      let req : HttpRequest :=
        { method := cfg.endpoints.refresh.method
          url := cfg.endpoints.refresh.url
          payload := Json.obj [("refreshToken", rt)]
          kind := if cfg.endpoints.refresh.method = Method.post then PayloadKind.body
                  else PayloadKind.params }
      match remote with
      | Except.error e => (s, Except.error e, [req])
      | Except.ok (status, respBody) =>
        if status ≠ 200 then
          (s, Except.error (JsErr.thrown ("Request failed with status " ++ toString status)),
            [req])
        else
          let r := onTokenPairUpdated cfg respBody s.store
          ({ s with store := r.1 }, r.2, [req])

/-- `logoutFromApp(data)`: sets the loading flag; when a logout URL is
configured (truthy string), issues the call — choosing POST body versus GET
params by `this.config.endpoints.login.method`, exactly as the source does
at line 186 — and requires status 200; then removes the three cookies and
returns `true`.  A thrown failure of the remote call propagates before the
cookies are removed. -/
def logoutFromApp (cfg : JWTAuthConfig) (data : Json) (remote : Except JsErr (Int × Json))
    (s : ControllerState) :
    ControllerState × Except JsErr Bool × List HttpRequest :=
  let s := { s with isLoading := true }
  if cfg.endpoints.logout.url ≠ "" then
    let req : HttpRequest :=
      { method := cfg.endpoints.login.method
        url := cfg.apiBaseUrl ++ cfg.endpoints.logout.url
        payload := data
        kind := if cfg.endpoints.login.method = Method.post then PayloadKind.body
                else PayloadKind.params }
    match remote with
    | Except.error e => (s, Except.error e, [req])
    | Except.ok (status, _) =>
      if status ≠ 200 then
        (s, Except.error (JsErr.thrown ("Request failed with status " ++ toString status)),
          [req])
      else
        ({ s with store := onLogoutRequestComplete s.store }, Except.ok true, [req])
  else
    ({ s with store := onLogoutRequestComplete s.store }, Except.ok true, [])

/-! ## Response interceptor (`onResponseError`) -/

/-- Observable events of the interceptor pipeline: a call issued to the
refresh endpoint, and a replay of the original request carrying the given
`Authorization` token. -/
inductive Ev where
  | refreshCall : Ev
  | replay (auth : Json) : Ev

/-- Number of refresh endpoint calls in an event trace. -/
def countRefreshCalls : List Ev → Nat
  | [] => 0
  | Ev.refreshCall :: rest => countRefreshCalls rest + 1
  | _ :: rest => countRefreshCalls rest

/-- Number of replays of the original request in an event trace. -/
def countReplays : List Ev → Nat
  | [] => 0
  | Ev.replay _ :: rest => countReplays rest + 1
  | _ :: rest => countReplays rest

/-- How a request issued through the shared client finally settles for its
caller. -/
inductive ReqResult where
  | ok (status : Int) (respBody : Json) : ReqResult
  | err (status : Int) : ReqResult
  | jsError (e : JsErr) : ReqResult
  | outOfFuel : ReqResult

/-- Environment of one request's error handling: the settled outcome of the
`n`-th refresh endpoint call and of the `n`-th replay of the original
request. -/
structure RespEnv where
  refreshOutcome : Nat → Except JsErr (Int × Json)
  replayOutcome : Nat → Except JsErr (Int × Json)

/-- `onResponseError(error)`: on status 401 (the literal `401` — the source
compares `error.response.status === 401` and never consults
`config.unauthorizedStatusCode`), awaits `refreshAccessToken()`; on refresh
failure removes the three cookies and rejects with the original error; on
success replays the original request with the refreshed token.  The replay
goes back through the same interceptor pipeline: a 2xx replay resolves, a
non-2xx replay rejects and re-enters `onResponseError`, so a 401 replay
starts the next round.  The round recursion is unfolded on explicit fuel;
`fuel = 0` marks a cut-off of the unbounded unfolding, not a behaviour of
the source. -/
def handleResponseError (cfg : JWTAuthConfig) (env : RespEnv) :
    Nat → Nat → Int → ControllerState → ControllerState × ReqResult × List Ev
  | 0, _, _, s => (s, ReqResult.outOfFuel, [])
  | Nat.succ fuel, n, status, s =>
    if status = 401 then
      let rr := refreshAccessToken cfg (env.refreshOutcome n) s
      let s1 := rr.1
      let evs := rr.2.2.map (fun _ => Ev.refreshCall)
      match rr.2.1 with
      | Except.error _ =>
        ({ s1 with store := onLogoutRequestComplete s1.store }, ReqResult.err status, evs)
      | Except.ok pair =>
        match env.replayOutcome n with
        | Except.error e => (s1, ReqResult.jsError e, evs ++ [Ev.replay pair.1])
        | Except.ok (st2, respBody) =>
          if 200 ≤ st2 ∧ st2 < 300 then
            (s1, ReqResult.ok st2 respBody, evs ++ [Ev.replay pair.1])
          else
            let next := handleResponseError cfg env fuel (n + 1) st2 s1
            (next.1, next.2.1, evs ++ [Ev.replay pair.1] ++ next.2.2)
    else
      (s, ReqResult.err status, [])

/-- Sequential handling of `k` requests that all received status 401 — a
valid interleaving of `k` concurrent failures under the single-threaded
cooperative scheduling (the source consults no shared pending-refresh
state, so the interleaving cannot change which calls are issued). -/
def handleErrors (cfg : JWTAuthConfig) (env : RespEnv) (fuel : Nat) :
    Nat → ControllerState → ControllerState × List Ev
  | 0, s => (s, [])
  | Nat.succ k, s =>
    let r := handleResponseError cfg env fuel 0 401 s
    let rest := handleErrors cfg env fuel k r.1
    (rest.1, r.2.2 ++ rest.2)

/-! ## Session orchestrator (`src/JWTAuthProvider.tsx`) -/

/-- Provider-held state: the controller, the tri-state `isLoggedIn`
(`null` until the first profile check completes), the in-memory user
snapshot, and the route last navigated to. -/
structure ProviderState where
  ctrl : ControllerState
  isLoggedIn : Option Bool
  user : Option Json
  navTarget : Option String

/-- The provider's `onError` handler: removes the three cookies, clears the
loading flag, resets `user` and `isLoggedIn`, and navigates to the
configured login page. -/
def onErrorHandler (cfg : JWTAuthConfig) (ps : ProviderState) : ProviderState :=
  { ps with
    ctrl := { store := onLogoutRequestComplete ps.ctrl.store, isLoading := false }
    user := none
    isLoggedIn := some false
    navTarget := some cfg.pages.login.url }

/-- The provider's `logout(data)`: delegates to `logoutFromApp`; on success
clears the loading flag, resets local state and navigates to the login page,
returning `true`; on any thrown failure runs `onError` and returns
`false`. -/
def providerLogout (cfg : JWTAuthConfig) (data : Json) (remote : Except JsErr (Int × Json))
    (ps : ProviderState) : ProviderState × Bool :=
  match logoutFromApp cfg data remote ps.ctrl with
  | (c, Except.ok _, _) =>
    ({ ps with
        ctrl := { c with isLoading := false }
        user := none
        isLoggedIn := some false
        navTarget := some cfg.pages.login.url }, true)
  | (c, Except.error _, _) =>
    (onErrorHandler cfg { ps with ctrl := c }, false)

/-- One tick of the provider's `setInterval` callback: returns whether
`fetchUser()` is invoked on this tick.  The source returns early unless
`isLoggedIn === true`, then requires the access token cookie to be falsy and
`isAuthStateLoading()` to be `false`. -/
def pollTick (isLoggedIn : Option Bool) (accessToken : Option Json) (isLoading : Bool) :
    Bool :=
  if isLoggedIn ≠ some true then false
  else if !jsTruthyOpt accessToken && !isLoading then true
  else false

/-! ## Concrete instances used by counterexamples and witnesses -/

/-- Access token descriptor with field path `"a"`. -/
def tdAccess : TokenDescriptor := { property := "a", expireTimeProperty := none }

/-- Refresh token descriptor with field path `"r"`. -/
def tdRefresh : TokenDescriptor := { property := "r", expireTimeProperty := none }

/-- A standard endpoint set (login and logout, refresh POST, profile GET). -/
def epSetStd : EndpointSet :=
  { login := { url := "/auth/signin", method := Method.post }
    logout := { url := "/auth/signout", method := Method.post }
    refresh := { url := "/auth/refresh-token", method := Method.post }
    user := { url := "/auth/profile", method := Method.get } }

/-- A fully standard configuration with the refresh descriptor present. -/
def cfgStd : JWTAuthConfig :=
  { apiBaseUrl := "https://api.example.com"
    accessToken := tdAccess
    refreshToken := some tdRefresh
    user := { property := "u" }
    endpoints := epSetStd
    pages := { login := { url := "/login" } }
    unauthorizedStatusCode := none }

/-- `cfgStd` with the optional refresh-token descriptor absent. -/
def cfgNoRefresh : JWTAuthConfig := { cfgStd with refreshToken := none }

/-- `cfgStd` with a custom unauthorized status code of 403. -/
def cfg403 : JWTAuthConfig := { cfgStd with unauthorizedStatusCode := some 403 }

/-- `cfgStd` with a GET login endpoint and a POST logout endpoint. -/
def cfgMismatch : JWTAuthConfig :=
  { cfgStd with
    endpoints :=
      { epSetStd with
        login := { url := "/auth/signin", method := Method.get }
        logout := { url := "/auth/signout", method := Method.post } } }

/-- Refresh endpoint response body holding fresh tokens at paths `"a"` and
`"r"`. -/
def rbodyGood : Json := Json.obj [("a", Json.str "A2"), ("r", Json.str "R2")]

/-- Environment where every refresh call returns 200 with `rbodyGood` and
every replay of the original request succeeds with 200. -/
def envOk : RespEnv :=
  { refreshOutcome := fun _ => Except.ok (200, rbodyGood)
    replayOutcome := fun _ => Except.ok (200, Json.null) }

/-- Environment where refreshes succeed but every replay of the original
request is rejected with 401 again. -/
def envAlways401 : RespEnv :=
  { refreshOutcome := fun _ => Except.ok (200, rbodyGood)
    replayOutcome := fun _ => Except.ok (401, Json.null) }

/-- A logged-in controller state: user snapshot and both token cookies
present. -/
def sLoggedIn : ControllerState :=
  { store :=
      { authUser := some (Json.obj [("id", Json.num 1)])
        accessToken := some (Json.str "A1")
        refreshToken := some (Json.str "R1") }
    isLoading := false }

/-! ## Helper lemmas -/

/-- A value with a present property is an object or an array, hence truthy. -/
theorem jsIndex_some_truthy {m : Json} {k : String} {x : Json}
    (h : jsIndex m k = some x) : jsTruthy m = true := by
  cases m with
  | arr elems => rfl
  | obj fields => rfl
  | null => exact absurd h (by simp [jsIndex])
  | bool b => exact absurd h (by simp [jsIndex])
  | num n => exact absurd h (by simp [jsIndex])
  | str s => exact absurd h (by simp [jsIndex])

/-- A non-empty strict resolution starts at a truthy value. -/
theorem strictResolve_cons_truthy {m : Json} {k : String} {l : List String} {v : Json}
    (h : strictResolve m (k :: l) = some v) : jsTruthy m = true := by
  cases l with
  | nil =>
    simp only [strictResolve] at h
    exact jsIndex_some_truthy h
  | cons k2 rest =>
    simp only [strictResolve] at h
    cases hidx : jsIndex m k with
    | none => rw [hidx] at h; simp at h
    | some mm => exact jsIndex_some_truthy hidx

/-- When every path segment exists, `getPropByKeyPathL` returns the resolved
value. -/
theorem getPropL_strictResolve {keys : List String} :
    ∀ {o v : Json} (d : Json), strictResolve o keys = some v →
      getPropByKeyPathL o keys d = v := by
  induction keys with
  | nil => intro o v d h; simp [strictResolve] at h
  | cons k rest ih =>
    intro o v d h
    cases rest with
    | nil =>
      simp only [strictResolve] at h
      simp [getPropByKeyPathL, h]
    | cons k2 rest2 =>
      simp only [strictResolve] at h
      cases hidx : jsIndex o k with
      | none => rw [hidx] at h; simp at h
      | some m =>
        rw [hidx] at h
        simp only [] at h
        have hm : jsTruthy m = true := strictResolve_cons_truthy h
        simp only [getPropByKeyPathL, hidx, hm, List.isEmpty_cons, Bool.not_false,
          Bool.and_self, if_pos]
        exact ih d h

/-- When the walk hits a missing segment (through truthy values),
`getPropByKeyPathL` returns the default. -/
theorem getPropL_pathMissing {keys : List String} :
    ∀ {o : Json} (d : Json), pathMissing o keys = true →
      getPropByKeyPathL o keys d = d := by
  induction keys with
  | nil => intro o d h; simp [pathMissing] at h
  | cons k rest ih =>
    intro o d h
    cases rest with
    | nil =>
      simp only [pathMissing, Option.isNone_iff_eq_none] at h
      simp [getPropByKeyPathL, h]
    | cons k2 rest2 =>
      simp only [pathMissing] at h
      cases hidx : jsIndex o k with
      | none => simp [getPropByKeyPathL, hidx]
      | some m =>
        rw [hidx] at h
        simp only [Bool.and_eq_true] at h
        obtain ⟨hm, hrest⟩ := h
        simp only [getPropByKeyPathL, hidx, hm, List.isEmpty_cons, Bool.not_false,
          Bool.and_self, if_pos]
        exact ih d hrest

/-- When the walk reaches a falsy (but present) value with segments
remaining, `getPropByKeyPathL` returns that falsy value instead of the
default. -/
theorem getPropL_falsyCutoff {keys : List String} :
    ∀ {o v : Json} (d : Json), falsyCutoff o keys = some v →
      getPropByKeyPathL o keys d = v := by
  induction keys with
  | nil => intro o v d h; simp [falsyCutoff] at h
  | cons k rest ih =>
    intro o v d h
    cases rest with
    | nil => simp [falsyCutoff] at h
    | cons k2 rest2 =>
      simp only [falsyCutoff] at h
      cases hidx : jsIndex o k with
      | none => rw [hidx] at h; simp at h
      | some m =>
        rw [hidx] at h
        simp only [] at h
        cases hm : jsTruthy m with
        | true =>
          simp only [hm, if_true] at h
          simp only [getPropByKeyPathL, hidx, hm, List.isEmpty_cons, Bool.not_false,
            Bool.and_self, if_pos]
          exact ih d h
        | false =>
          simp only [hm, Bool.false_eq_true, if_false, Option.some.injEq] at h
          subst h
          simp [getPropByKeyPathL, hidx, hm]

/-- When either configured token path has a missing segment,
`onTokenPairUpdated` throws `"Token not found in response"` and leaves the
store untouched. -/
theorem onTokenPairUpdated_missing (cfg : JWTAuthConfig) (rd : TokenDescriptor)
    (response : Json) (st : Store)
    (hrd : cfg.refreshToken = some rd)
    (habs : pathMissing response (splitDot cfg.accessToken.property) = true
          ∨ pathMissing response (splitDot rd.property) = true) :
    onTokenPairUpdated cfg response st
      = (st, Except.error (JsErr.thrown "Token not found in response")) := by
  have hcond : (!jsTruthy (getPropByKeyPath response cfg.accessToken.property Json.null)
      || !jsTruthy (getPropByKeyPath response rd.property Json.null)) = true := by
    rcases habs with h | h
    · have hz := getPropL_pathMissing (o := response) Json.null h
      simp [getPropByKeyPath, hz, jsTruthy]
    · have hz := getPropL_pathMissing (o := response) Json.null h
      simp [getPropByKeyPath, hz, jsTruthy]
  simp only [onTokenPairUpdated, hrd]
  rw [if_pos hcond]

/-- A refresh call that finds a truthy stored refresh token, gets a 200 from
the endpoint, and resolves both token paths to truthy values, issues exactly
one request and persists the new pair. -/
theorem refreshAccessToken_ok (cfg : JWTAuthConfig) (rd : TokenDescriptor)
    (rbody A R : Json) (s : ControllerState) (rt : Json)
    (hrd : cfg.refreshToken = some rd)
    (hst : s.store.refreshToken = some rt)
    (hrt : jsTruthy rt = true)
    (hA : getPropByKeyPath rbody cfg.accessToken.property Json.null = A)
    (hAt : jsTruthy A = true)
    (hR : getPropByKeyPath rbody rd.property Json.null = R)
    (hRt : jsTruthy R = true) :
    refreshAccessToken cfg (Except.ok (200, rbody)) s
      = ({ store := { s.store with accessToken := some A, refreshToken := some R },
           isLoading := true },
         Except.ok (A, R),
         [{ method := cfg.endpoints.refresh.method
            url := cfg.endpoints.refresh.url
            payload := Json.obj [("refreshToken", rt)]
            kind := if cfg.endpoints.refresh.method = Method.post then PayloadKind.body
                    else PayloadKind.params }]) := by
  simp only [refreshAccessToken, hst, hrt, Bool.not_true, Bool.false_eq_true, if_false,
    onTokenPairUpdated, hrd, hA, hAt, hR, hRt, Bool.not_false, Bool.or_self]
  simp

/-- One complete successful interceptor round: refresh succeeds, the replay
gets a 2xx, so the caller receives the replay's result and the trace is one
refresh call followed by one replay carrying the fresh token. -/
theorem handleResponseError_round_ok (cfg : JWTAuthConfig) (rd : TokenDescriptor)
    (env : RespEnv) (rbody A R pbody : Json) (fuel n : Nat) (s : ControllerState) (rt : Json)
    (hrd : cfg.refreshToken = some rd)
    (hst : s.store.refreshToken = some rt)
    (hrt : jsTruthy rt = true)
    (hro : env.refreshOutcome n = Except.ok (200, rbody))
    (hA : getPropByKeyPath rbody cfg.accessToken.property Json.null = A)
    (hAt : jsTruthy A = true)
    (hR : getPropByKeyPath rbody rd.property Json.null = R)
    (hRt : jsTruthy R = true)
    (hpo : env.replayOutcome n = Except.ok (200, pbody)) :
    handleResponseError cfg env (fuel + 1) n 401 s
      = ({ store := { s.store with accessToken := some A, refreshToken := some R },
           isLoading := true },
         ReqResult.ok 200 pbody,
         [Ev.refreshCall, Ev.replay A]) := by
  simp only [handleResponseError, if_pos rfl, hro]
  rw [refreshAccessToken_ok cfg rd rbody A R s rt hrd hst hrt hA hAt hR hRt]
  simp [hpo]

/-- `logoutFromApp` either throws or ends with the three cookies removed. -/
theorem logoutFromApp_cases (cfg : JWTAuthConfig) (data : Json)
    (remote : Except JsErr (Int × Json)) (s : ControllerState) :
    (∃ e, (logoutFromApp cfg data remote s).2.1 = Except.error e)
    ∨ (logoutFromApp cfg data remote s).1.store = emptyStore := by
  unfold logoutFromApp onLogoutRequestComplete
  split
  · cases remote with
    | error e => exact Or.inl ⟨e, rfl⟩
    | ok p =>
      obtain ⟨status, respBody⟩ := p
      by_cases hs : status = 200
      · subst hs
        simp
      · simp [hs]
  · simp

/-! ## Claim theorems -/

/-- C3, counterexample: on the object `{a: 0}` the path `"a.b"` has a missing
terminal segment (`0` has no property `b`), yet `getPropByKeyPath` returns
`0` instead of the default: the walk stops at any falsy intermediate value
and returns it. -/
theorem c3_counterexample :
    getPropByKeyPath (Json.obj [("a", Json.num 0)]) "a.b" Json.null = Json.num 0
    ∧ getPropByKeyPath (Json.obj [("a", Json.num 0)]) "a.b" Json.null ≠ Json.null := by
  refine ⟨rfl, fun h => ?_⟩
  have h2 : Json.num 0 = Json.null := h
  exact Json.noConfusion h2

/-- C3 (amended): field-path resolution never throws (the embedding is a
total function mirroring each JavaScript step, since property access on
non-objects yields `undefined`, not an exception); a path whose segments all
exist resolves to the found value; a path with a missing segment reached
through truthy values yields the default; but when the walk reaches a falsy
(present) value with segments remaining, that falsy value is returned
instead of the default. -/
theorem c3_field_path_resolution (o : Json) (path : String) (d : Json) :
    (∀ v, strictResolve o (splitDot path) = some v → getPropByKeyPath o path d = v)
    ∧ (pathMissing o (splitDot path) = true → getPropByKeyPath o path d = d)
    ∧ (∀ v, falsyCutoff o (splitDot path) = some v → getPropByKeyPath o path d = v) :=
  ⟨fun _ h => getPropL_strictResolve d h,
   fun h => getPropL_pathMissing d h,
   fun _ h => getPropL_falsyCutoff d h⟩

/-- C3 witness: existing nested path resolves to the value; missing path
yields the default. -/
theorem c3_field_path_resolution_witness :
    getPropByKeyPath (Json.obj [("x", Json.obj [("y", Json.str "t")])]) "x.y" Json.null
      = Json.str "t"
    ∧ getPropByKeyPath (Json.obj [("x", Json.obj [])]) "x.y" Json.null = Json.null :=
  ⟨(c3_field_path_resolution (Json.obj [("x", Json.obj [("y", Json.str "t")])]) "x.y"
      Json.null).1 (Json.str "t") rfl,
   (c3_field_path_resolution (Json.obj [("x", Json.obj [])]) "x.y" Json.null).2.1 rfl⟩

/-- C8: when either configured token field path has a missing segment, login
ingestion fails and neither token cookie changes (in particular neither is
written); when the user path did resolve to a truthy value the error is the
`"Token not found in response"` (`MissingTokens`) one. -/
theorem c8_missing_tokens_no_partial_write (cfg : JWTAuthConfig) (rd : TokenDescriptor)
    (response : Json) (st : Store)
    (hrd : cfg.refreshToken = some rd)
    (habs : pathMissing response (splitDot cfg.accessToken.property) = true
          ∨ pathMissing response (splitDot rd.property) = true) :
    (∃ e, (onLoginRequestComplete cfg response st).2 = Except.error e)
    ∧ (onLoginRequestComplete cfg response st).1.accessToken = st.accessToken
    ∧ (onLoginRequestComplete cfg response st).1.refreshToken = st.refreshToken
    ∧ (jsTruthy (getPropByKeyPath response cfg.user.property Json.null) = true →
        (onLoginRequestComplete cfg response st).2
          = Except.error (JsErr.thrown "Token not found in response")) := by
  cases hu : jsTruthy (getPropByKeyPath response cfg.user.property Json.null) with
  | false =>
    simp only [onLoginRequestComplete, hu, Bool.not_false, if_true]
    refine ⟨⟨JsErr.thrown "Unexpected response from API, please recheck", rfl⟩, ?_, ?_, ?_⟩
    · trivial
    · trivial
    · intro h; exact absurd h (by simp [hu])
  | true =>
    have hmiss := onTokenPairUpdated_missing cfg rd response
      { st with authUser := some (getPropByKeyPath response cfg.user.property Json.null) }
      hrd habs
    simp only [onLoginRequestComplete, hu, Bool.not_true, Bool.false_eq_true, if_false,
      hmiss]
    refine ⟨⟨JsErr.thrown "Token not found in response", rfl⟩, ?_, ?_, ?_⟩
    · trivial
    · trivial
    · intro _; trivial

/-- C8 witness: a response carrying a user but no tokens fails ingestion with
the token error and leaves both (absent) token slots absent. -/
theorem c8_missing_tokens_no_partial_write_witness :
    (∃ e, (onLoginRequestComplete cfgStd (Json.obj [("u", Json.obj [("id", Json.num 7)])])
        emptyStore).2 = Except.error e)
    ∧ (onLoginRequestComplete cfgStd (Json.obj [("u", Json.obj [("id", Json.num 7)])])
        emptyStore).1.accessToken = emptyStore.accessToken
    ∧ (onLoginRequestComplete cfgStd (Json.obj [("u", Json.obj [("id", Json.num 7)])])
        emptyStore).1.refreshToken = emptyStore.refreshToken
    ∧ (jsTruthy (getPropByKeyPath (Json.obj [("u", Json.obj [("id", Json.num 7)])])
        cfgStd.user.property Json.null) = true →
        (onLoginRequestComplete cfgStd (Json.obj [("u", Json.obj [("id", Json.num 7)])])
          emptyStore).2 = Except.error (JsErr.thrown "Token not found in response")) :=
  c8_missing_tokens_no_partial_write cfgStd tdRefresh
    (Json.obj [("u", Json.obj [("id", Json.num 7)])]) emptyStore rfl (Or.inl rfl)

/-- C10: when the user field path resolves to a truthy value but a token
field path has a missing segment, login ingestion fails only after the user
snapshot cookie has been written: starting from a store with no tokens, the
failed ingestion leaves the user snapshot present and both token slots still
empty — the user/token writes are not atomic. -/
theorem c10_user_written_before_token_failure (cfg : JWTAuthConfig) (rd : TokenDescriptor)
    (response : Json) (st : Store) (u : Json)
    (hrd : cfg.refreshToken = some rd)
    (hu : getPropByKeyPath response cfg.user.property Json.null = u)
    (hut : jsTruthy u = true)
    (habs : pathMissing response (splitDot cfg.accessToken.property) = true
          ∨ pathMissing response (splitDot rd.property) = true)
    (hsa : st.accessToken = none) (hsr : st.refreshToken = none) :
    (∃ e, (onLoginRequestComplete cfg response st).2 = Except.error e)
    ∧ (onLoginRequestComplete cfg response st).1.authUser = some u
    ∧ (onLoginRequestComplete cfg response st).1.accessToken = none
    ∧ (onLoginRequestComplete cfg response st).1.refreshToken = none := by
  have hmiss := onTokenPairUpdated_missing cfg rd response
    { st with authUser := some (getPropByKeyPath response cfg.user.property Json.null) }
    hrd habs
  have hut2 : jsTruthy (getPropByKeyPath response cfg.user.property Json.null) = true := by
    rw [hu]; exact hut
  simp only [onLoginRequestComplete, hut2, Bool.not_true, Bool.false_eq_true, if_false,
    hmiss]
  refine ⟨⟨JsErr.thrown "Token not found in response", rfl⟩, ?_, ?_, ?_⟩
  · rw [hu]
  · exact hsa
  · exact hsr

/-- C10 witness: ingesting a tokenless response with a present user, from an
empty store, leaves the user snapshot stored and both token slots empty. -/
theorem c10_user_written_before_token_failure_witness :
    (∃ e, (onLoginRequestComplete cfgStd (Json.obj [("u", Json.obj [("id", Json.num 9)])])
        emptyStore).2 = Except.error e)
    ∧ (onLoginRequestComplete cfgStd (Json.obj [("u", Json.obj [("id", Json.num 9)])])
        emptyStore).1.authUser = some (Json.obj [("id", Json.num 9)])
    ∧ (onLoginRequestComplete cfgStd (Json.obj [("u", Json.obj [("id", Json.num 9)])])
        emptyStore).1.accessToken = none
    ∧ (onLoginRequestComplete cfgStd (Json.obj [("u", Json.obj [("id", Json.num 9)])])
        emptyStore).1.refreshToken = none :=
  c10_user_written_before_token_failure cfgStd tdRefresh
    (Json.obj [("u", Json.obj [("id", Json.num 9)])]) emptyStore
    (Json.obj [("id", Json.num 9)]) rfl rfl rfl (Or.inl rfl) rfl rfl

/-- C9: the poll tick triggers no profile fetch while an auth operation is
loading or while `isLoggedIn` is not `true`; conversely a fetch is triggered
only when `isLoggedIn` is `true`, the access token cookie is absent (falsy)
and no auth operation is loading.  (`fetchUser` itself may still no-op, so
this is the tick-level guard the claim describes.) -/
theorem c9_poll_tick_guard (isLoggedIn : Option Bool) (accessToken : Option Json)
    (isLoading : Bool) :
    ((isLoading = true ∨ isLoggedIn ≠ some true) →
        pollTick isLoggedIn accessToken isLoading = false)
    ∧ (pollTick isLoggedIn accessToken isLoading = true →
        isLoggedIn = some true ∧ jsTruthyOpt accessToken = false ∧ isLoading = false) := by
  constructor
  · rintro (h | h) <;> simp [pollTick, h]
  · intro h
    by_cases hl : isLoggedIn = some true
    · refine ⟨hl, ?_⟩
      simp only [pollTick, hl, ne_eq, not_true_eq_false, if_false] at h
      cases ht : jsTruthyOpt accessToken <;> cases hld : isLoading <;>
        simp [ht, hld] at h ⊢
    · simp [pollTick, hl] at h

/-- C9 witness: with the loading flag set at the tick, no fetch is issued. -/
theorem c9_poll_tick_guard_witness :
    pollTick (some true) (some (Json.str "tok")) true = false :=
  (c9_poll_tick_guard (some true) (some (Json.str "tok")) true).1 (Or.inl rfl)

/-- C6: every provider-level logout — whatever the remote call's outcome,
including transport rejections and non-success statuses — ends with all
three cookie-store entries removed (the final store is the empty store, so
no later step of the operation re-populates it). -/
theorem c6_logout_always_clears_store (cfg : JWTAuthConfig) (data : Json)
    (remote : Except JsErr (Int × Json)) (ps : ProviderState) :
    ((providerLogout cfg data remote ps).1).ctrl.store = emptyStore := by
  have hc := logoutFromApp_cases cfg data remote ps.ctrl
  rcases h : logoutFromApp cfg data remote ps.ctrl with ⟨c, r, t⟩
  rw [h] at hc
  unfold providerLogout
  rw [h]
  cases r with
  | error e => simp [onErrorHandler, onLogoutRequestComplete]
  | ok b =>
    simp only []
    rcases hc with ⟨e, he⟩ | hc
    · exact absurd he (by simp)
    · exact hc

/-- C2, failing input: configuration without the refresh-token descriptor, a
stored refresh-token cookie `"R1"`, an unauthorized (401) response, a
reachable refresh endpoint.  The interceptor *does* issue a call to the
refresh endpoint (one `refreshCall` in the trace); only afterwards does
`onTokenPairUpdated` hit the `TypeError` on the absent descriptor, whose
catch clears the session.  The claim (and the README) say the refresh
endpoint must never be called when the descriptor is absent. -/
theorem c2_refresh_endpoint_called_without_descriptor :
    cfgNoRefresh.refreshToken = none
    ∧ (handleResponseError cfgNoRefresh envOk 1 0 401 sLoggedIn).2.2 = [Ev.refreshCall]
    ∧ countRefreshCalls (handleResponseError cfgNoRefresh envOk 1 0 401 sLoggedIn).2.2 ≠ 0
    ∧ (handleResponseError cfgNoRefresh envOk 1 0 401 sLoggedIn).1.store = emptyStore := by
  exact ⟨rfl, rfl, by decide, rfl⟩

/-- C4, failing input: `unauthorizedStatusCode` configured as 403 and a
response with status 403.  The interceptor does nothing (no refresh call,
the error is surfaced unchanged), while a literal 401 still triggers the
refresh: the source compares against the literal `401` and never reads
`config.unauthorizedStatusCode`. -/
theorem c4_unauthorized_status_config_ignored :
    cfg403.unauthorizedStatusCode = some 403
    ∧ (handleResponseError cfg403 envOk 1 0 403 sLoggedIn).2.2 = []
    ∧ (handleResponseError cfg403 envOk 1 0 403 sLoggedIn).2.1 = ReqResult.err 403
    ∧ countRefreshCalls (handleResponseError cfg403 envOk 1 0 401 sLoggedIn).2.2 = 1 := by
  exact ⟨rfl, rfl, rfl, by decide⟩

/-- C5, failing input: login endpoint with method GET, logout endpoint with
method POST.  The issued logout call is a GET carrying the data as query
params — the source branches on `endpoints.login.method` (line 186) instead
of the logout endpoint's own descriptor, which says POST. -/
theorem c5_logout_uses_login_method :
    cfgMismatch.endpoints.logout.method = Method.post
    ∧ (logoutFromApp cfgMismatch (Json.obj []) (Except.ok (200, Json.null)) sLoggedIn).2.2
        = [{ method := Method.get
             url := "https://api.example.com/auth/signout"
             payload := Json.obj []
             kind := PayloadKind.params }] := by
  exact ⟨rfl, rfl⟩

/-- C1, counterexample: three requests that all received 401 (handled in
sequence, a valid interleaving of the simultaneous failures under the
single-threaded scheduling — the source consults no shared pending-refresh
state) issue three calls to the refresh endpoint, not the exactly one the
claim demands. -/
theorem c1_counterexample :
    countRefreshCalls (handleErrors cfgStd envOk 1 3 sLoggedIn).2 = 3
    ∧ countRefreshCalls (handleErrors cfgStd envOk 1 3 sLoggedIn).2 ≠ 1 := by
  exact ⟨by decide, by decide⟩

/-- C1 (amended): there is no refresh coalescing — every request that fails
with the unauthorized status triggers its own refresh call.  Handling `k`
unauthorized failures from a state with a (truthy) stored refresh token, in
an environment where each refresh succeeds and each replay is accepted,
issues exactly `k` refresh endpoint calls and `k` replays, one per failed
request. -/
theorem c1_no_coalescing_each_error_refreshes (cfg : JWTAuthConfig) (rd : TokenDescriptor)
    (env : RespEnv) (rbody A R pbody : Json) (fuel : Nat)
    (hrd : cfg.refreshToken = some rd)
    (hro : ∀ n, env.refreshOutcome n = Except.ok (200, rbody))
    (hA : getPropByKeyPath rbody cfg.accessToken.property Json.null = A)
    (hAt : jsTruthy A = true)
    (hR : getPropByKeyPath rbody rd.property Json.null = R)
    (hRt : jsTruthy R = true)
    (hpo : ∀ n, env.replayOutcome n = Except.ok (200, pbody)) :
    ∀ (k : Nat) (s : ControllerState) (rt : Json),
      s.store.refreshToken = some rt → jsTruthy rt = true →
      countRefreshCalls (handleErrors cfg env (fuel + 1) k s).2 = k
      ∧ countReplays (handleErrors cfg env (fuel + 1) k s).2 = k := by
  intro k
  induction k with
  | zero =>
    intro s rt hst hrt
    simp [handleErrors, countRefreshCalls, countReplays]
  | succ k ih =>
    intro s rt hst hrt
    have hr := handleResponseError_round_ok cfg rd env rbody A R pbody fuel 0 s rt
      hrd hst hrt (hro 0) hA hAt hR hRt (hpo 0)
    simp only [handleErrors, hr]
    have hnext := ih ⟨⟨s.store.authUser, some A, some R⟩, true⟩ R rfl hRt
    constructor
    · simp [countRefreshCalls, hnext.1]
    · simp [countReplays, hnext.2]

/-- C1 witness: three 401 failures with the standard configuration produce
three refresh calls and three replays. -/
theorem c1_no_coalescing_each_error_refreshes_witness :
    countRefreshCalls (handleErrors cfgStd envOk 1 3 sLoggedIn).2 = 3
    ∧ countReplays (handleErrors cfgStd envOk 1 3 sLoggedIn).2 = 3 :=
  c1_no_coalescing_each_error_refreshes cfgStd tdRefresh envOk rbodyGood
    (Json.str "A2") (Json.str "R2") Json.null 0 rfl (fun _ => rfl) rfl rfl rfl rfl
    (fun _ => rfl) 3 sLoggedIn (Json.str "R1") rfl rfl

/-- C7, counterexample: replays re-enter the interceptor pipeline, so with an
endpoint that keeps answering 401 while refreshes keep succeeding, the same
original request is replayed three times within three rounds — the
"never retried more than once" bound does not hold (the rounds are cut off
only by the fuel, mirroring an unbounded loop in the source). -/
theorem c7_counterexample :
    countReplays (handleResponseError cfgStd envAlways401 3 0 401 sLoggedIn).2.2 = 3
    ∧ ¬ countReplays (handleResponseError cfgStd envAlways401 3 0 401 sLoggedIn).2.2 ≤ 1 := by
  exact ⟨by decide, by decide⟩

/-- C7 (amended): within one interceptor round whose refresh succeeds and
whose replay is accepted (2xx), the original request is replayed exactly
once, carrying the refreshed access token, and the replay's result is what
the original caller receives.  A replay that is itself rejected with 401
re-enters the interceptor and starts a further refresh-and-replay round, so
the single-replay guarantee is per successful round, not per request. -/
theorem c7_single_replay_per_successful_round (cfg : JWTAuthConfig) (rd : TokenDescriptor)
    (env : RespEnv) (rbody A R pbody : Json) (fuel n : Nat) (s : ControllerState) (rt : Json)
    (hrd : cfg.refreshToken = some rd)
    (hst : s.store.refreshToken = some rt)
    (hrt : jsTruthy rt = true)
    (hro : env.refreshOutcome n = Except.ok (200, rbody))
    (hA : getPropByKeyPath rbody cfg.accessToken.property Json.null = A)
    (hAt : jsTruthy A = true)
    (hR : getPropByKeyPath rbody rd.property Json.null = R)
    (hRt : jsTruthy R = true)
    (hpo : env.replayOutcome n = Except.ok (200, pbody)) :
    (handleResponseError cfg env (fuel + 1) n 401 s).2.1 = ReqResult.ok 200 pbody
    ∧ (handleResponseError cfg env (fuel + 1) n 401 s).2.2
        = [Ev.refreshCall, Ev.replay A]
    ∧ countReplays (handleResponseError cfg env (fuel + 1) n 401 s).2.2 = 1 := by
  have hr := handleResponseError_round_ok cfg rd env rbody A R pbody fuel n s rt
    hrd hst hrt hro hA hAt hR hRt hpo
  rw [hr]
  exact ⟨rfl, rfl, rfl⟩

/-- C7 witness: a single 401 with a successful refresh and an accepted replay
yields exactly one replay and returns the replay's result. -/
theorem c7_single_replay_per_successful_round_witness :
    (handleResponseError cfgStd envOk 1 0 401 sLoggedIn).2.1 = ReqResult.ok 200 Json.null
    ∧ (handleResponseError cfgStd envOk 1 0 401 sLoggedIn).2.2
        = [Ev.refreshCall, Ev.replay (Json.str "A2")]
    ∧ countReplays (handleResponseError cfgStd envOk 1 0 401 sLoggedIn).2.2 = 1 :=
  c7_single_replay_per_successful_round cfgStd tdRefresh envOk rbodyGood
    (Json.str "A2") (Json.str "R2") Json.null 0 0 sLoggedIn (Json.str "R1")
    rfl rfl rfl rfl rfl rfl rfl rfl rfl
